import Mathlib

/-!
Verification of the Rent Estimation & Feature-Impact Engine of the
real-estate-dashboard repository.

The engine lives in `src/components/Prediction.jsx` (class `RentPredictor`
and the `PredictionTab` component) and `src/components/Dashboard.jsx`
(`processAndCleanData`, the Papa.parse completion callback and the
aggregation blocks); an alternate variant of the predictor (coefficients
balcony=212, lift=332) and the `boolToNum` helper appear in a second,
unnamed source file of the repository.

JavaScript numbers are modelled by `JsFloat`: exact rationals plus the three
non-finite values NaN, Infinity and -Infinity.  (IEEE-754 rounding error is
not modelled; every concrete quantity handled by the claims is far from a
round-off boundary.)  Loosely-typed field values (booleans / strings /
numbers / undefined) are modelled by `JsVal`.
-/

/-- Model of a JavaScript number: NaN, ±Infinity, or a finite value
(represented exactly as a rational). -/
inductive JsFloat where
  | nan : JsFloat
  | inf : JsFloat
  | negInf : JsFloat
  | num (q : ℚ) : JsFloat
deriving DecidableEq, Repr

namespace JsFloat

/-- JavaScript `x || 0`: NaN and 0 are falsy and give 0, everything else
(including negative numbers and ±Infinity) passes through.  `0 || 0 = 0`,
so only the NaN case changes the value. -/
def orZero : JsFloat → JsFloat
  | nan => num 0
  | x => x

/-- JavaScript addition. -/
def add : JsFloat → JsFloat → JsFloat
  | nan, _ => nan
  | _, nan => nan
  | inf, negInf => nan
  | negInf, inf => nan
  | inf, _ => inf
  | _, inf => inf
  | negInf, _ => negInf
  | _, negInf => negInf
  | num a, num b => num (a + b)

/-- JavaScript negation. -/
def neg : JsFloat → JsFloat
  | nan => nan
  | inf => negInf
  | negInf => inf
  | num a => num (-a)

/-- JavaScript subtraction. -/
def sub (a b : JsFloat) : JsFloat := add a (neg b)

/-- Multiplication of a JavaScript number by a finite constant `c`. -/
def mulQ (c : ℚ) : JsFloat → JsFloat
  | nan => nan
  | num q => num (c * q)
  | inf => if 0 < c then inf else if c < 0 then negInf else nan
  | negInf => if 0 < c then negInf else if c < 0 then inf else nan

/-- JavaScript division by a (nonnegative) integer count, as used for
arithmetic means; division by zero of a finite value is never reached by
the code (guarded by a length check). -/
def divNat (x : JsFloat) (n : ℕ) : JsFloat :=
  if n = 0 then nan else mulQ ((n : ℚ))⁻¹ x

/-- `Math.round`: round half toward +∞ on finite values, identity on
NaN and ±Infinity. -/
def round : JsFloat → JsFloat
  | num q => num ((⌊q + 1/2⌋ : ℤ) : ℚ)
  | x => x

/-- JavaScript `x > 0` (false on NaN). -/
def gtZero : JsFloat → Bool
  | num q => decide (0 < q)
  | inf => true
  | _ => false

/-- JavaScript `q ≤ x` for a finite constant `q` (false on NaN). -/
def geQ (x : JsFloat) (q : ℚ) : Bool :=
  match x with
  | num a => decide (q ≤ a)
  | inf => true
  | _ => false

/-- JavaScript `x ≤ q` for a finite constant `q` (false on NaN). -/
def leQ (x : JsFloat) (q : ℚ) : Bool :=
  match x with
  | num a => decide (a ≤ q)
  | negInf => true
  | _ => false

/-- JavaScript truthiness of a number: NaN and 0 are falsy. -/
def truthy : JsFloat → Bool
  | nan => false
  | num q => decide (q ≠ 0)
  | _ => true

/-- JavaScript `isNaN`. -/
def isNaN : JsFloat → Bool
  | nan => true
  | _ => false

end JsFloat

/-- A loosely-typed JavaScript field value, as held by the amenity columns
(`balcony`, `garden`, `lift`): a boolean, a string, an integer, or
`undefined`. -/
inductive JsVal where
  | bool (b : Bool) : JsVal
  | str (s : String) : JsVal
  | int (n : ℤ) : JsVal
  | undef : JsVal
deriving DecidableEq, Repr

/-- JavaScript `String(v)` on a `JsVal`. -/
def jsStringOf : JsVal → String
  | .bool true => "true"
  | .bool false => "false"
  | .str s => s
  | .int n => toString n
  | .undef => "undefined"

/-- The amenity coercion used inside `RentPredictor.predict`
(`src/components/Prediction.jsx`):
`v === true || v === 'true' || v === 'yes'` — case-sensitive. -/
def predictAmenTruthy : JsVal → Bool
  | .bool true => true
  | .str s => s = "true" || s = "yes"
  | _ => false

/-- `String.prototype.toLowerCase` (ASCII range; the amenity values are
ASCII). -/
def lowerStr (s : String) : String := ⟨s.data.map Char.toLower⟩

/-- The amenity coercion used by `featureImpactData` in
`src/components/Dashboard.jsx`:
`String(v).toLowerCase() === 'true' || String(v).toLowerCase() === 'yes'`. -/
def dashAmenTruthy (v : JsVal) : Bool :=
  lowerStr (jsStringOf v) = "true" || lowerStr (jsStringOf v) = "yes"

/-- The amenity coercion `boolToNum` of the unnamed regression-based
prediction component: `val === true || val === 'true' || val === 1 ||
val === '1' ? 1 : 0`. -/
def boolToNum : JsVal → ℕ
  | .bool true => 1
  | .str s => if s = "true" || s = "1" then 1 else 0
  | .int n => if n = 1 then 1 else 0
  | _ => 0

/-! ### Model of JavaScript `parseFloat` on strings -/

/-- ASCII whitespace skipped by `parseFloat` (the JS definition also skips
further Unicode space characters, which do not occur in this dataset). -/
def isJsSpace (c : Char) : Bool :=
  c = ' ' || c = '\t' || c = '\n' || c = '\r' ||
  c = Char.ofNat 11 || c = Char.ofNat 12

/-- Decimal value of a digit list (most significant first). -/
def digitsToNat (l : List Char) : ℕ :=
  l.foldl (fun acc ch => 10 * acc + (ch.toNat - 48)) 0

/-- `parseFloat` on a character list: skip whitespace, optional sign,
`Infinity`, or a decimal mantissa with optional fraction and exponent;
NaN when no digits can be consumed.  The numeric value is kept exact. -/
def jsParseFloatChars (l0 : List Char) : JsFloat :=
  let l1 := l0.dropWhile isJsSpace
  let sgn : ℚ := match l1 with
    | '-' :: _ => -1
    | _ => 1
  let l2 : List Char := match l1 with
    | '-' :: t => t
    | '+' :: t => t
    | _ => l1
  if l2.take 8 = "Infinity".toList then
    (if sgn = 1 then JsFloat.inf else JsFloat.negInf)
  else
    let ip := l2.takeWhile Char.isDigit
    let l3 := l2.drop ip.length
    let fp : List Char := match l3 with
      | '.' :: t => t.takeWhile Char.isDigit
      | _ => []
    let l4 : List Char := match l3 with
      | '.' :: t => t.drop (t.takeWhile Char.isDigit).length
      | _ => l3
    if ip.isEmpty && fp.isEmpty then JsFloat.nan
    else
      let mant : ℚ := (digitsToNat ip : ℚ) + (digitsToNat fp : ℚ) / 10 ^ fp.length
      let e : ℤ := match l4 with
        | ch :: rest =>
          if ch = 'e' || ch = 'E' then
            match rest with
            | '-' :: t =>
              if (t.takeWhile Char.isDigit).isEmpty then 0
              else -(digitsToNat (t.takeWhile Char.isDigit) : ℤ)
            | '+' :: t =>
              if (t.takeWhile Char.isDigit).isEmpty then 0
              else (digitsToNat (t.takeWhile Char.isDigit) : ℤ)
            | t =>
              if (t.takeWhile Char.isDigit).isEmpty then 0
              else (digitsToNat (t.takeWhile Char.isDigit) : ℤ)
          else 0
        | [] => 0
      JsFloat.num (sgn * mant * (10 : ℚ) ^ e)

/-- `parseFloat` on a possibly-missing string field
(`parseFloat(undefined)` is NaN). -/
def jsParseFloat : Option String → JsFloat
  | none => JsFloat.nan
  | some s => jsParseFloatChars s.toList

/-- JavaScript truthiness of a possibly-missing string: `undefined` and
the empty string are falsy. -/
def truthyStr : Option String → Bool
  | none => false
  | some s => s ≠ ""

example : jsParseFloat (some "") = JsFloat.nan := by decide
example : jsParseFloat (some "abc") = JsFloat.nan := by decide
example : jsParseFloat none = JsFloat.nan := by decide
example : jsParseFloat (some "-Infinity") = JsFloat.negInf := by decide

/-! ### Region Name Canonicalizer (`cleanRegionName`) -/

/-- Global replacement of the two-character pattern `a b` by the single
character `c`, scanning left to right — the model of the JavaScript
`String.prototype.replace` with a global two-character literal regex. -/
def replace2 (a b c : Char) : List Char → List Char
  | [] => []
  | [x] => [x]
  | x :: y :: rest =>
    if x = a && y = b then c :: replace2 a b c rest
    else x :: replace2 a b c (y :: rest)

/-- `true` when the list contains the two-character pattern `a b`. -/
def hasPair (a b : Char) : List Char → Bool
  | [] => false
  | x :: rest =>
    match rest with
    | [] => false
    | y :: _ => (x = a && y = b) || hasPair a b rest

/-- `'_' → ' '`, the first replacement of `cleanRegionName`. -/
def underscoreToSpace (ch : Char) : Char := if ch = '_' then ' ' else ch

/-- The seven mis-decoded UTF-8 patterns repaired by `cleanRegionName`,
each a two-character garbage sequence starting with `Ã` (U+00C3), paired
with the umlaut / ß character it is replaced by. -/
def umlautPatterns : List (Char × Char) :=
  [ (Char.ofNat 0xBC, Char.ofNat 0xFC),    -- Ã¼ → ü
    (Char.ofNat 0x153, Char.ofNat 0xDC),   -- Ãœ → Ü
    (Char.ofNat 0xB6, Char.ofNat 0xF6),    -- Ã¶ → ö
    (Char.ofNat 0x2013, Char.ofNat 0xD6),  -- Ã– → Ö
    (Char.ofNat 0xA4, Char.ofNat 0xE4),    -- Ã¤ → ä
    (Char.ofNat 0x201E, Char.ofNat 0xC4),  -- Ã„ → Ä
    (Char.ofNat 0x178, Char.ofNat 0xDF) ]  -- ÃŸ → ß

/-- The first character of every repaired pattern: `Ã` (U+00C3). -/
def umlautLead : Char := Char.ofNat 0xC3

/-- The replacement chain of `cleanRegionName` on character lists:
underscores to spaces, then the seven umlaut repairs in source order. -/
def cleanChars (l : List Char) : List Char :=
  umlautPatterns.foldl (fun acc pr => replace2 umlautLead pr.1 pr.2 acc)
    (l.map underscoreToSpace)

/-- `RentPredictor.cleanRegionName` (`src/components/Prediction.jsx`):
falsy input (`undefined` / empty string) gives `"Unknown"`; otherwise the
underscore and umlaut replacement chain. -/
def cleanRegionName (name : Option String) : String :=
  match name with
  | none => "Unknown"
  | some s => if s = "" then "Unknown" else ⟨cleanChars s.toList⟩

/-- `cleanRegionName` restricted to present strings. -/
def cleanS (s : String) : String := cleanRegionName (some s)

example : cleanS "Baden_W\xc3\xbcrttemberg" = "Baden W\xfcrttemberg" := by decide
example : cleanS "Th\xc3\xbcringen" = "Th\xfcringen" := by decide
example : cleanS "" = "Unknown" := by decide
example : cleanS "Unknown" = "Unknown" := by decide

/-! ### Data model -/

/-- A raw CSV row as delivered by Papa.parse (`header: true`,
`dynamicTyping: false`): every expected column is a string, or absent.
The `transform` callback has already trimmed values and stripped
surrounding quotes. -/
structure RawRow where
  totalRent : Option String := none
  baseRent : Option String := none
  livingSpace : Option String := none
  noRooms : Option String := none
  yearConstructed : Option String := none
  serviceCharge : Option String := none
  heatingCosts : Option String := none
  regio1 : Option String := none
  condition : Option String := none
  balcony : Option String := none
  garden : Option String := none
  lift : Option String := none
deriving DecidableEq, Repr

/-- A loosely-shaped engine row: both the cleaned property records produced
by `processAndCleanData` and the ephemeral prediction scenarios built by
the Prediction tab are passed to `RentPredictor` in this shape.  A missing
numeric field is modelled as NaN (indistinguishable from `undefined` under
every operation the engine applies: truthiness, `parseFloat`, `|| 0`). -/
structure Row where
  totalRent : JsFloat := .nan
  baseRent : JsFloat := .nan
  livingSpace : JsFloat := .nan
  noRooms : JsFloat := .nan
  rooms : JsFloat := .nan
  yearConstructed : JsFloat := .nan
  serviceCharge : JsFloat := .nan
  heatingCosts : JsFloat := .nan
  pricePerSqm : JsFloat := .nan
  regio1 : Option String := none
  region : Option String := none
  condition : Option String := none
  balcony : JsVal := .undef
  garden : JsVal := .undef
  lift : JsVal := .undef
deriving DecidableEq, Repr

/-- A raw amenity column value (a string, or absent) as a `JsVal`. -/
def rawVal : Option String → JsVal
  | none => .undef
  | some s => .str s

/-- `row['x']?.trim() || 'Unknown'`: trimmed field, `"Unknown"` when the
field is absent or blank. -/
def trimOrUnknown : Option String → String
  | none => "Unknown"
  | some s => if s.trim = "" then "Unknown" else s.trim

/-- JavaScript division, as used for `totalRent / livingSpace`. -/
def jsDiv : JsFloat → JsFloat → JsFloat
  | .nan, _ => .nan
  | _, .nan => .nan
  | .inf, .inf => .nan
  | .inf, .negInf => .nan
  | .negInf, .inf => .nan
  | .negInf, .negInf => .nan
  | .inf, .num y => if 0 ≤ y then .inf else .negInf
  | .negInf, .num y => if 0 ≤ y then .negInf else .inf
  | .num _, .inf => .num 0
  | .num _, .negInf => .num 0
  | .num x, .num y =>
    if y = 0 then (if x = 0 then .nan else if 0 < x then .inf else .negInf)
    else .num (x / y)

/-- `(x).toFixed(2)` produces a decimal string; downstream code only ever
reads it back with `parseFloat`, so it is modelled by its numeric value,
rounded to two decimals. -/
def toFixed2 : JsFloat → JsFloat
  | .num q => .num ((⌊q * 100 + 1/2⌋ : ℤ) / (100 : ℚ))
  | x => x

/-- The predicate under which `processAndCleanData`
(`src/components/Dashboard.jsx`) keeps a raw row:
`row['totalRent'] && !isNaN(totalRent) && row['livingSpace'] &&
!isNaN(livingSpace) && totalRent > 0 && livingSpace > 0 &&
yearConstructed >= 1800 && yearConstructed <= currentYear`, where the
numeric locals are `parseFloat(...) || 0`. -/
def keepRow (currentYear : ℚ) (row : RawRow) : Bool :=
  let totalRent := (jsParseFloat row.totalRent).orZero
  let livingSpace := (jsParseFloat row.livingSpace).orZero
  let yearConstructed := (jsParseFloat row.yearConstructed).orZero
  truthyStr row.totalRent && !totalRent.isNaN &&
  truthyStr row.livingSpace && !livingSpace.isNaN &&
  totalRent.gtZero && livingSpace.gtZero &&
  yearConstructed.geQ 1800 && yearConstructed.leQ currentYear

/-- The cleaned record `processAndCleanData` pushes for a kept row.
The JS object spread `{...row, ...}` retains the raw amenity strings and
overrides the numeric fields with their coerced values. -/
def cleanRecord (row : RawRow) : Row :=
  let totalRent := (jsParseFloat row.totalRent).orZero
  let livingSpace := (jsParseFloat row.livingSpace).orZero
  { totalRent := totalRent
    baseRent := (jsParseFloat row.baseRent).orZero
    livingSpace := livingSpace
    noRooms := (jsParseFloat row.noRooms).orZero
    yearConstructed := (jsParseFloat row.yearConstructed).orZero
    serviceCharge := (jsParseFloat row.serviceCharge).orZero
    heatingCosts := (jsParseFloat row.heatingCosts).orZero
    pricePerSqm :=
      if totalRent.truthy && livingSpace.truthy then toFixed2 (jsDiv totalRent livingSpace)
      else .num 0
    regio1 := some (trimOrUnknown row.regio1)
    region := none
    condition := some (trimOrUnknown row.condition)
    balcony := rawVal row.balcony
    garden := rawVal row.garden
    lift := rawVal row.lift }

/-- `processAndCleanData` (`src/components/Dashboard.jsx`): the Record
Normalizer.  `currentYear` (from `new Date().getFullYear()`) is a
parameter of the model. -/
def processAndCleanData (currentYear : ℚ) : List RawRow → List Row
  | [] => []
  | row :: rest =>
    if keepRow currentYear row then cleanRecord row :: processAndCleanData currentYear rest
    else processAndCleanData currentYear rest

/-! ### The Rent Model (`RentPredictor`) -/

/-- The fixed linear coefficients of a `RentPredictor`. -/
structure Coeffs where
  base : ℚ
  livingSpace : ℚ
  rooms : ℚ
  balcony : ℚ
  garden : ℚ
  lift : ℚ
deriving DecidableEq, Repr

/-- Coefficients of the deployed `RentPredictor`
(`src/components/Prediction.jsx`). -/
def coeffsMain : Coeffs :=
  { base := 800, livingSpace := 41/5, rooms := 120, balcony := 48, garden := 65, lift := 32 }

/-- Coefficients of the alternate `RentPredictor` variant found in the
unnamed source file of the repository. -/
def coeffsVariant : Coeffs :=
  { base := 800, livingSpace := 41/5, rooms := 120, balcony := 212, garden := 65, lift := 332 }

/-- The per-amenity model impacts held in `this.featureImpacts`. -/
structure Impacts where
  balcony : JsFloat
  garden : JsFloat
  lift : JsFloat
deriving DecidableEq, Repr

/-- The mutable state of a `RentPredictor` instance (the coefficient set is
fixed at construction and passed separately to each operation). -/
structure Predictor where
  isTrained : Bool
  data : List Row
  featureImpacts : Impacts
  regionMultipliers : String → Option ℚ

/-- `new RentPredictor()`. -/
def mkPredictor : Predictor :=
  { isTrained := false
    data := []
    featureImpacts := ⟨.num 0, .num 0, .num 0⟩
    regionMultipliers := fun _ => none }

/-- The region resolved by `predict`:
`this.cleanRegionName(row.regio1) || this.cleanRegionName(row.region) || 'Berlin'`. -/
def predictRegion (row : Row) : String :=
  let r1 := cleanRegionName row.regio1
  if r1 ≠ "" then r1
  else
    let r2 := cleanRegionName row.region
    if r2 ≠ "" then r2 else "Berlin"

/-- The multiplier applied by `predict`:
`this.regionMultipliers[region] || 1.0` (an absent entry — and a zero
entry — fall back to `1.0`). -/
def multiplierFor (p : Predictor) (region : String) : ℚ :=
  match p.regionMultipliers region with
  | none => 1
  | some q => if q = 0 then 1 else q

/-- `RentPredictor.predict` (`src/components/Prediction.jsx`).
`parseFloat` applied to a number round-trips it (including ±Infinity and
NaN), so on the `JsFloat`-valued fields it is the identity and only the
`|| 0` coercion remains. -/
def predict (c : Coeffs) (p : Predictor) (row : Row) : JsFloat :=
  let pred0 := JsFloat.add (JsFloat.add (.num c.base)
    (JsFloat.mulQ c.livingSpace row.livingSpace.orZero))
    (JsFloat.mulQ c.rooms row.rooms.orZero)
  let pred1 := if predictAmenTruthy row.balcony then JsFloat.add pred0 (.num c.balcony) else pred0
  let pred2 := if predictAmenTruthy row.garden then JsFloat.add pred1 (.num c.garden) else pred1
  let pred3 := if predictAmenTruthy row.lift then JsFloat.add pred2 (.num c.lift) else pred2
  JsFloat.round (JsFloat.mulQ (multiplierFor p (predictRegion row)) pred3)

/-- The per-region multiplier value computed by `train` for a region key:
`avg > 0 ? avg / 1200 : 1.0` with `avg` the mean `totalRent || 0` over the
rows whose cleaned `regio1` equals the key. -/
def regionMult (data : List Row) (region : String) : ℚ :=
  let regionRows := data.filter (fun r => cleanRegionName r.regio1 = region)
  let avg := (regionRows.map (fun r =>
    match r.totalRent with
    | .num q => q
    | _ => 0)).sum / (regionRows.length : ℚ)
  if 0 < avg then avg / 1200 else 1

/-- The cleaned region keys of a data set, as enumerated by `train`
(`.map(cleanRegionName).filter(Boolean)` then deduplicated by `new Set`). -/
def trainRegions (data : List Row) : List String :=
  ((data.map (fun r => cleanRegionName r.regio1)).filter (fun s => s ≠ "")).dedup

/-- Write one region's multiplier into the table (the body of the
`uniqueRegions.forEach` loop). -/
def setMult (data : List Row) (tbl : String → Option ℚ) (region : String) :
    String → Option ℚ :=
  fun s => if s = region then some (regionMult data region) else tbl s

/-- The amenity fields of a row, as toggled by the Feature-Impact
Analyzer. -/
inductive Feature where
  | balcony
  | garden
  | lift
deriving DecidableEq, Repr

/-- `{ ...row, [feature]: v }`. -/
def setFeature (row : Row) (f : Feature) (v : JsVal) : Row :=
  match f with
  | .balcony => { row with balcony := v }
  | .garden => { row with garden := v }
  | .lift => { row with lift := v }

/-- The per-feature body of `RentPredictor.calculateModelFeatureImpacts`:
filter the training rows by truthiness of `livingSpace` and `rooms`, take
`predict(rowYes) - predict(rowNo)` for each, and divide the sum of the
differences by their count (`0` when there are none). -/
def featureImpact (c : Coeffs) (p : Predictor) (f : Feature) : JsFloat :=
  let rows := p.data.filter (fun row => row.livingSpace.truthy && row.rooms.truthy)
  let diffs := rows.map (fun row =>
    JsFloat.sub (predict c p (setFeature row f (.bool true)))
      (predict c p (setFeature row f (.bool false))))
  if diffs.length = 0 then .num 0
  else JsFloat.divNat (diffs.foldl JsFloat.add (.num 0)) diffs.length

/-- `RentPredictor.calculateModelFeatureImpacts`. -/
def calculateModelFeatureImpacts (c : Coeffs) (p : Predictor) : Impacts :=
  { balcony := featureImpact c p .balcony
    garden := featureImpact c p .garden
    lift := featureImpact c p .lift }

/-- `RentPredictor.train` (`src/components/Prediction.jsx`): no-op on an
empty array; otherwise store the data, write a multiplier for every region
key occurring in the new data into the existing table, recompute
`featureImpacts`, and mark the model trained. -/
def train (c : Coeffs) (p : Predictor) (data : List Row) : Predictor :=
  if data.length = 0 then p
  else
    let p1 := { p with data := data }
    let tbl := (trainRegions data).foldl (setMult data) p1.regionMultipliers
    let p2 := { p1 with regionMultipliers := tbl }
    { p2 with
      featureImpacts := calculateModelFeatureImpacts c p2
      isTrained := true }

/-- `RentPredictor.getFeatureImpacts`: `Math.round` of each stored
impact. -/
def getFeatureImpacts (p : Predictor) : Impacts :=
  { balcony := p.featureImpacts.balcony.round
    garden := p.featureImpacts.garden.round
    lift := p.featureImpacts.lift.round }

/-! ### Scenario comparison (`getSixPredictions` and the chart averaging) -/

/-- One named scenario result of `getSixPredictions`. -/
structure ScenRes where
  name : String
  rent : JsFloat
  hasFeature : Bool
  featureType : String
deriving DecidableEq, Repr

/-- The base inputs shared by the eight scenarios:
`{ livingSpace, rooms, regio1: region }`. -/
def scenarioRow (livingSpace rooms : JsFloat) (region : String)
    (balcony garden lift : Bool) : Row :=
  { livingSpace := livingSpace, rooms := rooms, regio1 := some region,
    balcony := .bool balcony, garden := .bool garden, lift := .bool lift }

/-- `RentPredictor.getSixPredictions` (`src/components/Prediction.jsx`):
the eight named amenity combinations, each priced with `predict`. -/
def getSixPredictions (c : Coeffs) (p : Predictor)
    (livingSpace rooms : JsFloat) (region : String) : List ScenRes :=
  [ { name := "All true",
      rent := predict c p (scenarioRow livingSpace rooms region true true true),
      hasFeature := true, featureType := "allTrue" },
    { name := "All false",
      rent := predict c p (scenarioRow livingSpace rooms region false false false),
      hasFeature := true, featureType := "allFalse" },
    { name := "Balcony",
      rent := predict c p (scenarioRow livingSpace rooms region true false false),
      hasFeature := true, featureType := "balcony" },
    { name := "No Balcony",
      rent := predict c p (scenarioRow livingSpace rooms region false true true),
      hasFeature := false, featureType := "balcony" },
    { name := "Garden",
      rent := predict c p (scenarioRow livingSpace rooms region false true false),
      hasFeature := true, featureType := "garden" },
    { name := "No Garden",
      rent := predict c p (scenarioRow livingSpace rooms region true false true),
      hasFeature := false, featureType := "garden" },
    { name := "Lift",
      rent := predict c p (scenarioRow livingSpace rooms region false false true),
      hasFeature := true, featureType := "lift" },
    { name := "No Lift",
      rent := predict c p (scenarioRow livingSpace rooms region true true false),
      hasFeature := false, featureType := "lift" } ]

/-- `Math.round((p.rent + ref.rent) / 2)`, the chart averaging of one
scenario rent with a reference rent. -/
def averageWith (x ref : JsFloat) : JsFloat :=
  JsFloat.round (JsFloat.mulQ (1/2) (JsFloat.add x ref))

/-- The `adjustedPredictions` computation of the `PredictionTab` prediction
effect (`src/components/Prediction.jsx`): drop the `allTrue` / `allFalse`
entries, average each single-amenity-true rent with the all-true rent and
each single-amenity-false rent with the all-false rent. -/
def adjustedPredictions (c : Coeffs) (p : Predictor)
    (livingSpace rooms : JsFloat) (region : String) : List ScenRes :=
  let rawPredictions := getSixPredictions c p livingSpace rooms region
  let allTrue := rawPredictions.find? (fun q => q.featureType = "allTrue")
  let allFalse := rawPredictions.find? (fun q => q.featureType = "allFalse")
  (rawPredictions.filter
      (fun q => q.featureType ≠ "allTrue" && q.featureType ≠ "allFalse")).map
    (fun q =>
      if (q.featureType = "balcony" || q.featureType = "garden" ||
          q.featureType = "lift") && q.hasFeature then
        match allTrue with
        | some t => { q with rent := averageWith q.rent t.rent }
        | none => q
      else if (q.featureType = "balcony" || q.featureType = "garden" ||
          q.featureType = "lift") && !q.hasFeature then
        match allFalse with
        | some t => { q with rent := averageWith q.rent t.rent }
        | none => q
      else q)

/-! ### Dashboard ingestion state -/

/-- The observable component state touched by the Papa.parse completion
callback.  The `Dashboard` component has no error or status state at all:
`data` and `loading` are the only fields the callback can set (the `error`
callback merely logs to the console). -/
structure DashState where
  data : List Row
  loading : Bool
deriving DecidableEq, Repr

/-- The `Papa.parse` `complete` callback (`src/components/Dashboard.jsx`):
`setData(processAndCleanData(results.data)); setLoading(false);` — with no
branch on the number of valid records. -/
def parseComplete (currentYear : ℚ) (results : List RawRow) (_st : DashState) : DashState :=
  { data := processAndCleanData currentYear results, loading := false }

/-! ### Spec-side definitions

Definitions in this section follow the wording of the specification (not
the source); each is compared with the corresponding source-derived
definition by the claim theorems. -/

/-- The row-retention predicate in the words of claim C1: `totalRent`
present and parsing to a number `> 0`, `livingSpace` present and parsing
to a number `> 0`, and `yearConstructed` (coerced, default 0) within
`[1800, currentYear]`. -/
def specKeepRow (currentYear : ℚ) (row : RawRow) : Bool :=
  row.totalRent.isSome && (jsParseFloat row.totalRent).gtZero &&
  row.livingSpace.isSome && (jsParseFloat row.livingSpace).gtZero &&
  ((jsParseFloat row.yearConstructed).orZero.geQ 1800 &&
    (jsParseFloat row.yearConstructed).orZero.leQ currentYear)

/-- The amenity truthiness in the words of claim C8: boolean `true`, or the
strings `"true"` / `"yes"` compared case-insensitively. -/
def specAmenTruthy : JsVal → Bool
  | .bool true => true
  | .str s => lowerStr s = "true" || lowerStr s = "yes"
  | _ => false

/-- The per-feature impact in the words of claim C4: the mean of the
per-record `predict` differences over exactly the records with positive
`livingSpace` and `rooms` (`0` when that subset is empty), rounded to the
nearest integer. -/
def specFeatureImpact (c : Coeffs) (p : Predictor) (f : Feature) : JsFloat :=
  let rows := p.data.filter (fun row =>
    row.livingSpace.gtZero && row.rooms.gtZero)
  let diffs := rows.map (fun row =>
    JsFloat.sub (predict c p (setFeature row f (.bool true)))
      (predict c p (setFeature row f (.bool false))))
  if diffs.length = 0 then .num 0
  else JsFloat.round (JsFloat.divNat (diffs.foldl JsFloat.add (.num 0)) diffs.length)

/-- The scenario-input coercion in the words of claim C7: any non-finite or
negative numeric `livingSpace` / `rooms` contributes 0. -/
def specCoerce : JsFloat → JsFloat
  | .num q => if 0 < q then .num q else .num 0
  | _ => .num 0

/-- `predict` in the words of claim C7: identical formula, but with
non-finite and negative inputs contributing 0. -/
def specPredict (c : Coeffs) (p : Predictor) (row : Row) : JsFloat :=
  let pred0 := JsFloat.add (JsFloat.add (.num c.base)
    (JsFloat.mulQ c.livingSpace (specCoerce row.livingSpace)))
    (JsFloat.mulQ c.rooms (specCoerce row.rooms))
  let pred1 := if predictAmenTruthy row.balcony then JsFloat.add pred0 (.num c.balcony) else pred0
  let pred2 := if predictAmenTruthy row.garden then JsFloat.add pred1 (.num c.garden) else pred1
  let pred3 := if predictAmenTruthy row.lift then JsFloat.add pred2 (.num c.lift) else pred2
  JsFloat.round (JsFloat.mulQ (multiplierFor p (predictRegion row)) pred3)

/-! ### Lemmas about `replace2` and the canonicalizer -/

theorem replace2_ne_nil (a b c : Char) :
    ∀ l : List Char, l ≠ [] → replace2 a b c l ≠ []
  | [x], _ => by simp [replace2]
  | x :: y :: rest, _ => by
    simp only [replace2]
    split <;> simp

theorem mem_replace2 (a b c x : Char) :
    ∀ l : List Char, x ∈ replace2 a b c l → x ∈ l ∨ x = c
  | [y], h => by
    simp [replace2] at h
    exact Or.inl (by simp [h])
  | y :: z :: rest, h => by
    simp only [replace2] at h
    split at h
    · rcases List.mem_cons.mp h with h | h
      · exact Or.inr h
      · rcases mem_replace2 a b c x rest h with h | h
        · exact Or.inl (by simp [h])
        · exact Or.inr h
    · rcases List.mem_cons.mp h with h | h
      · exact Or.inl (by simp [h])
      · rcases mem_replace2 a b c x (z :: rest) h with h | h
        · exact Or.inl (List.mem_cons_of_mem _ h)
        · exact Or.inr h

theorem head?_replace2 (a b c : Char) :
    ∀ l : List Char, (replace2 a b c l).head? = some c ∨ (replace2 a b c l).head? = l.head?
  | [] => Or.inr rfl
  | [_] => Or.inr rfl
  | x :: y :: rest => by
    simp only [replace2]
    split
    · exact Or.inl rfl
    · exact Or.inr rfl

theorem hasPair_tail {a b y : Char} {t : List Char}
    (h : hasPair a b (y :: t) = false) : hasPair a b t = false := by
  cases t with
  | nil => rfl
  | cons z t2 =>
    have h' : ((y = a && z = b) || hasPair a b (z :: t2)) = false := h
    rw [Bool.or_eq_false_iff] at h'
    exact h'.2

theorem hasPair_cons_false {a b x : Char} {l : List Char}
    (hx : ∀ z, l.head? = some z → (x = a && z = b) = false)
    (hl : hasPair a b l = false) : hasPair a b (x :: l) = false := by
  cases l with
  | nil => rfl
  | cons y t =>
    have h1 := hx y rfl
    show ((x = a && y = b) || hasPair a b (y :: t)) = false
    rw [h1, hl]
    rfl

theorem replace2_eq_self (a b c : Char) :
    ∀ l : List Char, hasPair a b l = false → replace2 a b c l = l
  | [], _ => rfl
  | [_], _ => rfl
  | x :: y :: rest, h => by
    have h' : ((x = a && y = b) || hasPair a b (y :: rest)) = false := h
    rw [Bool.or_eq_false_iff] at h'
    have ih := replace2_eq_self a b c (y :: rest) h'.2
    simp only [replace2, h'.1, Bool.false_eq_true, if_false, ih]

theorem hasPair_replace2_self (a b c : Char) (hca : c ≠ a) (hcb : c ≠ b) :
    ∀ l : List Char, hasPair a b (replace2 a b c l) = false
  | [] => rfl
  | [_] => rfl
  | x :: y :: rest => by
    simp only [replace2]
    split
    · refine hasPair_cons_false (fun z _ => ?_) (hasPair_replace2_self a b c hca hcb rest)
      simp [hca]
    · rename_i hcond
      refine hasPair_cons_false (fun z hz => ?_)
        (hasPair_replace2_self a b c hca hcb (y :: rest))
      rcases head?_replace2 a b c (y :: rest) with hh | hh
      · rw [hz] at hh
        have hzc : z = c := by simpa using hh
        subst hzc
        simp [hcb]
      · rw [hz] at hh
        have hzy : z = y := by simpa using hh
        subst hzy
        simpa using hcond

theorem hasPair_replace2_other (a b a' b' c' : Char) (hca : c' ≠ a) (hcb : c' ≠ b) :
    ∀ l : List Char, hasPair a b l = false → hasPair a b (replace2 a' b' c' l) = false
  | [], _ => rfl
  | [_], _ => rfl
  | x :: y :: rest, h => by
    have h' : ((x = a && y = b) || hasPair a b (y :: rest)) = false := h
    rw [Bool.or_eq_false_iff] at h'
    simp only [replace2]
    split
    · refine hasPair_cons_false (fun z _ => ?_)
        (hasPair_replace2_other a b a' b' c' hca hcb rest (hasPair_tail h'.2))
      simp [hca]
    · refine hasPair_cons_false (fun z hz => ?_)
        (hasPair_replace2_other a b a' b' c' hca hcb (y :: rest) h'.2)
      rcases head?_replace2 a' b' c' (y :: rest) with hh | hh
      · rw [hz] at hh
        have hzc : z = c' := by simpa using hh
        subst hzc
        simp [hcb]
      · rw [hz] at hh
        have hzy : z = y := by simpa using hh
        subst hzy
        exact h'.1

theorem all_replace2 (a b c : Char) (p : Char → Bool) (hc : p c = true) :
    ∀ l : List Char, l.all p = true → (replace2 a b c l).all p = true
  | [], h => h
  | [_], h => h
  | x :: y :: rest, h => by
    simp only [List.all_cons, Bool.and_eq_true] at h
    simp only [replace2]
    split
    · simp only [List.all_cons, Bool.and_eq_true]
      exact ⟨hc, all_replace2 a b c p hc rest h.2.2⟩
    · simp only [List.all_cons, Bool.and_eq_true]
      refine ⟨h.1, all_replace2 a b c p hc (y :: rest) ?_⟩
      simp only [List.all_cons, Bool.and_eq_true]
      exact h.2

/-- The folded umlaut-repair chain over an arbitrary pattern list. -/
def foldRepl (pats : List (Char × Char)) (l : List Char) : List Char :=
  pats.foldl (fun acc pr => replace2 umlautLead pr.1 pr.2 acc) l

theorem cleanChars_eq_foldRepl (l : List Char) :
    cleanChars l = foldRepl umlautPatterns (l.map underscoreToSpace) := rfl

theorem foldRepl_ne_nil (pats : List (Char × Char)) :
    ∀ l : List Char, l ≠ [] → foldRepl pats l ≠ [] := by
  induction pats with
  | nil => exact fun l h => h
  | cons pr t ih =>
    intro l h
    exact ih _ (replace2_ne_nil _ _ _ _ h)

theorem hasPair_foldRepl (a b : Char) (pats : List (Char × Char)) :
    ∀ l : List Char, hasPair a b l = false →
      (∀ pr ∈ pats, pr.2 ≠ a ∧ pr.2 ≠ b) →
      hasPair a b (foldRepl pats l) = false := by
  induction pats with
  | nil => exact fun l h _ => h
  | cons pr t ih =>
    intro l h hp
    have h0 := hp pr (List.mem_cons_self pr t)
    exact ih _ (hasPair_replace2_other a b umlautLead pr.1 pr.2 h0.1 h0.2 l h)
      (fun q hq => hp q (List.mem_cons_of_mem _ hq))

theorem all_foldRepl (p : Char → Bool) (pats : List (Char × Char)) :
    ∀ l : List Char, l.all p = true → (∀ pr ∈ pats, p pr.2 = true) →
      (foldRepl pats l).all p = true := by
  induction pats with
  | nil => exact fun l h _ => h
  | cons pr t ih =>
    intro l h hp
    exact ih _ (all_replace2 _ _ _ p (hp pr (List.mem_cons_self pr t)) l h)
      (fun q hq => hp q (List.mem_cons_of_mem _ hq))

theorem foldRepl_eq_self (pats : List (Char × Char)) :
    ∀ l : List Char, (∀ pr ∈ pats, hasPair umlautLead pr.1 l = false) →
      foldRepl pats l = l := by
  induction pats with
  | nil => exact fun l _ => rfl
  | cons pr t ih =>
    intro l h
    have h0 : replace2 umlautLead pr.1 pr.2 l = l :=
      replace2_eq_self _ _ _ l (h pr (List.mem_cons_self pr t))
    show foldRepl t (replace2 umlautLead pr.1 pr.2 l) = l
    rw [h0]
    exact ih l (fun q hq => h q (List.mem_cons_of_mem _ hq))

theorem map_underscore_all (l : List Char) :
    (l.map underscoreToSpace).all (fun ch => ch != '_') = true := by
  induction l with
  | nil => rfl
  | cons x t ih =>
    simp only [List.map_cons, List.all_cons, Bool.and_eq_true]
    refine ⟨?_, ih⟩
    by_cases hx : x = '_'
    · simp [underscoreToSpace, hx]
    · simp [underscoreToSpace, hx]

theorem map_underscore_id (l : List Char) (h : l.all (fun ch => ch != '_') = true) :
    l.map underscoreToSpace = l := by
  induction l with
  | nil => rfl
  | cons x t ih =>
    simp only [List.all_cons, Bool.and_eq_true] at h
    have hx : x ≠ '_' := by simpa using h.1
    simp only [List.map_cons, ih h.2]
    simp [underscoreToSpace, hx]

theorem cleanChars_ne_nil (l : List Char) (h : l ≠ []) : cleanChars l ≠ [] := by
  rw [cleanChars_eq_foldRepl]
  apply foldRepl_ne_nil
  simpa using h

theorem cleanChars_no_underscore (l : List Char) :
    (cleanChars l).all (fun ch => ch != '_') = true := by
  rw [cleanChars_eq_foldRepl]
  exact all_foldRepl _ _ _ (map_underscore_all l) (by decide)

theorem cleanChars_no_pats (l : List Char) :
    ∀ pr ∈ umlautPatterns, hasPair umlautLead pr.1 (cleanChars l) = false := by
  have h0 : hasPair umlautLead (Char.ofNat 0xbc) (cleanChars l) = false := by
    rw [show cleanChars l = foldRepl [(Char.ofNat 0x153, Char.ofNat 0xDC), (Char.ofNat 0xB6, Char.ofNat 0xF6), (Char.ofNat 0x2013, Char.ofNat 0xD6), (Char.ofNat 0xA4, Char.ofNat 0xE4), (Char.ofNat 0x201E, Char.ofNat 0xC4), (Char.ofNat 0x178, Char.ofNat 0xDF)]
        (replace2 umlautLead (Char.ofNat 0xbc) (Char.ofNat 0xfc)
          (foldRepl [] (l.map underscoreToSpace))) from rfl]
    exact hasPair_foldRepl _ _ _ _
      (hasPair_replace2_self _ _ _ (by decide) (by decide) _) (by decide)
  have h1 : hasPair umlautLead (Char.ofNat 0x153) (cleanChars l) = false := by
    rw [show cleanChars l = foldRepl [(Char.ofNat 0xB6, Char.ofNat 0xF6), (Char.ofNat 0x2013, Char.ofNat 0xD6), (Char.ofNat 0xA4, Char.ofNat 0xE4), (Char.ofNat 0x201E, Char.ofNat 0xC4), (Char.ofNat 0x178, Char.ofNat 0xDF)]
        (replace2 umlautLead (Char.ofNat 0x153) (Char.ofNat 0xdc)
          (foldRepl [(Char.ofNat 0xBC, Char.ofNat 0xFC)] (l.map underscoreToSpace))) from rfl]
    exact hasPair_foldRepl _ _ _ _
      (hasPair_replace2_self _ _ _ (by decide) (by decide) _) (by decide)
  have h2 : hasPair umlautLead (Char.ofNat 0xb6) (cleanChars l) = false := by
    rw [show cleanChars l = foldRepl [(Char.ofNat 0x2013, Char.ofNat 0xD6), (Char.ofNat 0xA4, Char.ofNat 0xE4), (Char.ofNat 0x201E, Char.ofNat 0xC4), (Char.ofNat 0x178, Char.ofNat 0xDF)]
        (replace2 umlautLead (Char.ofNat 0xb6) (Char.ofNat 0xf6)
          (foldRepl [(Char.ofNat 0xBC, Char.ofNat 0xFC), (Char.ofNat 0x153, Char.ofNat 0xDC)] (l.map underscoreToSpace))) from rfl]
    exact hasPair_foldRepl _ _ _ _
      (hasPair_replace2_self _ _ _ (by decide) (by decide) _) (by decide)
  have h3 : hasPair umlautLead (Char.ofNat 0x2013) (cleanChars l) = false := by
    rw [show cleanChars l = foldRepl [(Char.ofNat 0xA4, Char.ofNat 0xE4), (Char.ofNat 0x201E, Char.ofNat 0xC4), (Char.ofNat 0x178, Char.ofNat 0xDF)]
        (replace2 umlautLead (Char.ofNat 0x2013) (Char.ofNat 0xd6)
          (foldRepl [(Char.ofNat 0xBC, Char.ofNat 0xFC), (Char.ofNat 0x153, Char.ofNat 0xDC), (Char.ofNat 0xB6, Char.ofNat 0xF6)] (l.map underscoreToSpace))) from rfl]
    exact hasPair_foldRepl _ _ _ _
      (hasPair_replace2_self _ _ _ (by decide) (by decide) _) (by decide)
  have h4 : hasPair umlautLead (Char.ofNat 0xa4) (cleanChars l) = false := by
    rw [show cleanChars l = foldRepl [(Char.ofNat 0x201E, Char.ofNat 0xC4), (Char.ofNat 0x178, Char.ofNat 0xDF)]
        (replace2 umlautLead (Char.ofNat 0xa4) (Char.ofNat 0xe4)
          (foldRepl [(Char.ofNat 0xBC, Char.ofNat 0xFC), (Char.ofNat 0x153, Char.ofNat 0xDC), (Char.ofNat 0xB6, Char.ofNat 0xF6), (Char.ofNat 0x2013, Char.ofNat 0xD6)] (l.map underscoreToSpace))) from rfl]
    exact hasPair_foldRepl _ _ _ _
      (hasPair_replace2_self _ _ _ (by decide) (by decide) _) (by decide)
  have h5 : hasPair umlautLead (Char.ofNat 0x201e) (cleanChars l) = false := by
    rw [show cleanChars l = foldRepl [(Char.ofNat 0x178, Char.ofNat 0xDF)]
        (replace2 umlautLead (Char.ofNat 0x201e) (Char.ofNat 0xc4)
          (foldRepl [(Char.ofNat 0xBC, Char.ofNat 0xFC), (Char.ofNat 0x153, Char.ofNat 0xDC), (Char.ofNat 0xB6, Char.ofNat 0xF6), (Char.ofNat 0x2013, Char.ofNat 0xD6), (Char.ofNat 0xA4, Char.ofNat 0xE4)] (l.map underscoreToSpace))) from rfl]
    exact hasPair_foldRepl _ _ _ _
      (hasPair_replace2_self _ _ _ (by decide) (by decide) _) (by decide)
  have h6 : hasPair umlautLead (Char.ofNat 0x178) (cleanChars l) = false := by
    rw [show cleanChars l = foldRepl []
        (replace2 umlautLead (Char.ofNat 0x178) (Char.ofNat 0xdf)
          (foldRepl [(Char.ofNat 0xBC, Char.ofNat 0xFC), (Char.ofNat 0x153, Char.ofNat 0xDC), (Char.ofNat 0xB6, Char.ofNat 0xF6), (Char.ofNat 0x2013, Char.ofNat 0xD6), (Char.ofNat 0xA4, Char.ofNat 0xE4), (Char.ofNat 0x201E, Char.ofNat 0xC4)] (l.map underscoreToSpace))) from rfl]
    exact hasPair_foldRepl _ _ _ _
      (hasPair_replace2_self _ _ _ (by decide) (by decide) _) (by decide)
  intro pr hpr
  fin_cases hpr
  · exact h0
  · exact h1
  · exact h2
  · exact h3
  · exact h4
  · exact h5
  · exact h6

theorem cleanChars_idem (l : List Char) : cleanChars (cleanChars l) = cleanChars l := by
  have hmap : (cleanChars l).map underscoreToSpace = cleanChars l :=
    map_underscore_id _ (cleanChars_no_underscore l)
  show foldRepl umlautPatterns ((cleanChars l).map underscoreToSpace) = cleanChars l
  rw [hmap]
  exact foldRepl_eq_self _ _ (cleanChars_no_pats l)

theorem cleanRegionName_ne_empty (o : Option String) : cleanRegionName o ≠ "" := by
  match o with
  | none => decide
  | some s =>
    obtain ⟨l⟩ := s
    by_cases hl : l = []
    · subst hl
      decide
    · have hs : (⟨l⟩ : String) ≠ "" := fun h => hl (congrArg String.data h)
      simp only [cleanRegionName, hs, if_false, if_neg hs]
      exact fun h => cleanChars_ne_nil l hl (congrArg String.data h)

theorem cleanS_idem (s : String) : cleanS (cleanS s) = cleanS s := by
  obtain ⟨l⟩ := s
  by_cases hl : l = []
  · subst hl
    decide
  · have hs : (⟨l⟩ : String) ≠ "" := fun h => hl (congrArg String.data h)
    have h1 : cleanS ⟨l⟩ = ⟨cleanChars l⟩ := by
      simp [cleanS, cleanRegionName, hs, String.toList]
    have hne : cleanChars l ≠ [] := cleanChars_ne_nil l hl
    have hs2 : (⟨cleanChars l⟩ : String) ≠ "" := fun h => hne (congrArg String.data h)
    rw [h1]
    simp [cleanS, cleanRegionName, hs2, String.toList, cleanChars_idem]

/-! ### Claim C6 and C10 -/

/-- C6: `cleanRegionName` is a total, pure function: it returns `"Unknown"`
for missing or empty input, never returns an empty string (in particular
not for non-empty input), and is idempotent:
`cleanRegionName (cleanRegionName x) = cleanRegionName x` for every
string `x`. -/
theorem c6_canonicalize_total_idempotent :
    cleanRegionName none = "Unknown" ∧
    cleanRegionName (some "") = "Unknown" ∧
    (∀ o : Option String, cleanRegionName o ≠ "") ∧
    (∀ s : String, cleanS (cleanS s) = cleanS s) :=
  ⟨rfl, by decide, cleanRegionName_ne_empty, cleanS_idem⟩

/-- C10 (implicit): `cleanRegionName` is truthy on every input, so the
fallback chain `cleanRegionName(row.regio1) || cleanRegionName(row.region)
|| 'Berlin'` in `predict` always resolves at its first alternative; the
`'Berlin'` branch is unreachable and a missing or blank `regio1` resolves
to region `"Unknown"`. -/
theorem c10_predictRegion_first_alternative :
    (∀ row : Row, predictRegion row = cleanRegionName row.regio1) ∧
    (∀ row : Row, row.regio1 = none ∨ row.regio1 = some "" →
      predictRegion row = "Unknown") := by
  constructor
  · intro row
    simp [predictRegion, cleanRegionName_ne_empty row.regio1]
  · intro row h
    have h1 : predictRegion row = cleanRegionName row.regio1 := by
      simp [predictRegion, cleanRegionName_ne_empty row.regio1]
    rcases h with h | h <;> rw [h1, h] <;> decide

/-- Witness for C10 at concrete inputs. -/
theorem c10_predictRegion_first_alternative_witness :
    predictRegion { regio1 := none } = "Unknown" ∧
    predictRegion { regio1 := some "" } = "Unknown" :=
  ⟨c10_predictRegion_first_alternative.2 { regio1 := none } (Or.inl rfl),
   c10_predictRegion_first_alternative.2 { regio1 := some "" } (Or.inr rfl)⟩

/-! ### Closed forms of `predict` -/

theorem floor_add_half (n : ℤ) : ⌊(n : ℚ) + 1/2⌋ = n := by
  rw [Int.floor_int_add]
  norm_num

/-- The amenity bonus added by `predict`. -/
def amenBonus (c : Coeffs) (row : Row) : ℚ :=
  (if predictAmenTruthy row.balcony then c.balcony else 0) +
  (if predictAmenTruthy row.garden then c.garden else 0) +
  (if predictAmenTruthy row.lift then c.lift else 0)

/-- `predict` on finite `livingSpace` and `rooms` inputs is the rounded
scaled linear formula; negative values pass through unchanged. -/
theorem predict_num (c : Coeffs) (p : Predictor) (row : Row) (ls rms : ℚ)
    (hls : row.livingSpace = .num ls) (hrm : row.rooms = .num rms) :
    predict c p row =
      .num ⌊multiplierFor p (predictRegion row) *
        (c.base + c.livingSpace * ls + c.rooms * rms + amenBonus c row) + 1/2⌋ := by
  unfold predict amenBonus
  rw [hls, hrm]
  cases hb : predictAmenTruthy row.balcony <;>
    cases hg : predictAmenTruthy row.garden <;>
      cases hl : predictAmenTruthy row.lift <;>
        simp only [JsFloat.orZero, JsFloat.mulQ, JsFloat.add, JsFloat.round,
          if_true, if_false, Bool.false_eq_true, JsFloat.num.injEq] <;>
        norm_num <;> ring_nf

/-- On an untrained model every region multiplier lookup yields `1.0`. -/
theorem multiplierFor_mk (region : String) : multiplierFor mkPredictor region = 1 := rfl

/-- `predict` on an untrained model with finite inputs. -/
theorem predict_mk_num (c : Coeffs) (row : Row) (ls rms : ℚ)
    (hls : row.livingSpace = .num ls) (hrm : row.rooms = .num rms) :
    predict c mkPredictor row =
      .num ⌊c.base + c.livingSpace * ls + c.rooms * rms + amenBonus c row + 1/2⌋ := by
  rw [predict_num c mkPredictor row ls rms hls hrm, multiplierFor_mk, one_mul]

/-! ### Claim C2 -/

/-- The untrained scenario of claim C2 with `balcony` forced on:
livingSpace 80, rooms 3, garden and lift absent/false. -/
def c2RowBalcony : Row :=
  { livingSpace := .num 80, rooms := .num 3,
    balcony := .bool true, garden := .bool false, lift := .bool false }

/-- The baseline scenario of claim C2: livingSpace 80, rooms 3, all
amenities false. -/
def c2RowBase : Row :=
  { livingSpace := .num 80, rooms := .num 3,
    balcony := .bool false, garden := .bool false, lift := .bool false }

/-- C2, counterexample: on the untrained `RentPredictor` of
`src/components/Prediction.jsx` (balcony coefficient 48, not 212), the
balcony-on input returns 1864, not 2028 as the claim states. -/
theorem c2_counterexample :
    predict coeffsMain mkPredictor c2RowBalcony = .num 1864 ∧
    JsFloat.num 1864 ≠ JsFloat.num 2028 := by
  constructor
  · rw [predict_mk_num coeffsMain c2RowBalcony 80 3 rfl rfl]
    have h : coeffsMain.base + coeffsMain.livingSpace * 80 + coeffsMain.rooms * 3 +
        amenBonus coeffsMain c2RowBalcony = ((1864 : ℤ) : ℚ) := by
      norm_num [coeffsMain, amenBonus, predictAmenTruthy, c2RowBalcony]
    rw [h, floor_add_half]
    norm_cast
  · intro h
    have := JsFloat.num.inj h
    norm_num at this

/-- C2, amended: on an untrained model the base input predicts 1816 for
both coefficient sets; the balcony-on input predicts 1864 with the
deployed coefficients (balcony = 48) and 2028 with the alternate variant
(balcony = 212). -/
theorem c2_amended :
    predict coeffsMain mkPredictor c2RowBase = .num 1816 ∧
    predict coeffsMain mkPredictor c2RowBalcony = .num 1864 ∧
    predict coeffsVariant mkPredictor c2RowBase = .num 1816 ∧
    predict coeffsVariant mkPredictor c2RowBalcony = .num 2028 := by
  refine ⟨?_, ?_, ?_, ?_⟩
  · rw [predict_mk_num coeffsMain c2RowBase 80 3 rfl rfl]
    have h : coeffsMain.base + coeffsMain.livingSpace * 80 + coeffsMain.rooms * 3 +
        amenBonus coeffsMain c2RowBase = ((1816 : ℤ) : ℚ) := by
      norm_num [coeffsMain, amenBonus, predictAmenTruthy, c2RowBase]
    rw [h, floor_add_half]
    norm_cast
  · rw [predict_mk_num coeffsMain c2RowBalcony 80 3 rfl rfl]
    have h : coeffsMain.base + coeffsMain.livingSpace * 80 + coeffsMain.rooms * 3 +
        amenBonus coeffsMain c2RowBalcony = ((1864 : ℤ) : ℚ) := by
      norm_num [coeffsMain, amenBonus, predictAmenTruthy, c2RowBalcony]
    rw [h, floor_add_half]
    norm_cast
  · rw [predict_mk_num coeffsVariant c2RowBase 80 3 rfl rfl]
    have h : coeffsVariant.base + coeffsVariant.livingSpace * 80 + coeffsVariant.rooms * 3 +
        amenBonus coeffsVariant c2RowBase = ((1816 : ℤ) : ℚ) := by
      norm_num [coeffsVariant, amenBonus, predictAmenTruthy, c2RowBase]
    rw [h, floor_add_half]
    norm_cast
  · rw [predict_mk_num coeffsVariant c2RowBalcony 80 3 rfl rfl]
    have h : coeffsVariant.base + coeffsVariant.livingSpace * 80 + coeffsVariant.rooms * 3 +
        amenBonus coeffsVariant c2RowBalcony = ((2028 : ℤ) : ℚ) := by
      norm_num [coeffsVariant, amenBonus, predictAmenTruthy, c2RowBalcony]
    rw [h, floor_add_half]
    norm_cast

/-! ### Claim C7 -/

/-- The scenario refuting claim C7: a finite negative `livingSpace`. -/
def c7RowNeg : Row := { livingSpace := .num (-10), rooms := .num 0 }

/-- C7, counterexample: a negative `livingSpace` of -10 contributes its
own negative term (`predict` yields 718 = round(800 - 8.2·10)), whereas
the claim's reading (negatives contribute 0, `specPredict`) yields 800. -/
theorem c7_counterexample :
    predict coeffsMain mkPredictor c7RowNeg = .num 718 ∧
    specPredict coeffsMain mkPredictor c7RowNeg = .num 800 ∧
    JsFloat.num 718 ≠ JsFloat.num 800 := by
  refine ⟨?_, ?_, ?_⟩
  · rw [predict_mk_num coeffsMain c7RowNeg (-10) 0 rfl rfl]
    have h : coeffsMain.base + coeffsMain.livingSpace * (-10) + coeffsMain.rooms * 0 +
        amenBonus coeffsMain c7RowNeg = ((718 : ℤ) : ℚ) := by
      norm_num [coeffsMain, amenBonus, predictAmenTruthy, c7RowNeg]
    rw [h, floor_add_half]
    norm_cast
  · show JsFloat.round (JsFloat.mulQ (multiplierFor mkPredictor (predictRegion c7RowNeg))
      (JsFloat.add (JsFloat.add (.num coeffsMain.base)
        (JsFloat.mulQ coeffsMain.livingSpace (specCoerce c7RowNeg.livingSpace)))
        (JsFloat.mulQ coeffsMain.rooms (specCoerce c7RowNeg.rooms)))) = .num 800
    have h1 : specCoerce c7RowNeg.livingSpace = .num 0 := by
      show specCoerce (.num (-10)) = .num 0
      norm_num [specCoerce]
    have h2 : specCoerce c7RowNeg.rooms = .num 0 := by
      show specCoerce (.num 0) = .num 0
      norm_num [specCoerce]
    rw [h1, h2, multiplierFor_mk]
    show JsFloat.round (JsFloat.mulQ 1 (.num (coeffsMain.base + coeffsMain.livingSpace * 0 +
      coeffsMain.rooms * 0))) = .num 800
    have h : (1 : ℚ) * (coeffsMain.base + coeffsMain.livingSpace * 0 + coeffsMain.rooms * 0) =
        ((800 : ℤ) : ℚ) := by
      norm_num [coeffsMain]
    show JsFloat.round (.num ((1 : ℚ) * (coeffsMain.base + coeffsMain.livingSpace * 0 +
      coeffsMain.rooms * 0))) = .num 800
    rw [h]
    show JsFloat.num (((⌊((800 : ℤ) : ℚ) + 1/2⌋ : ℤ) : ℚ)) = .num 800
    rw [floor_add_half]
    norm_cast
  · intro h
    have := JsFloat.num.inj h
    norm_num at this

/-- C7, amended: `predict` is total and never throws; a NaN (non-numeric)
`livingSpace` or `rooms` is coerced to 0 by `|| 0`; but a finite value —
including a negative one — contributes its own `coefficient × value` term
(it is not zeroed), as the closed form on an untrained model shows for
every rational input. -/
theorem c7_amended :
    (∀ (c : Coeffs) (p : Predictor) (row : Row),
      predict c p { row with livingSpace := .nan } =
        predict c p { row with livingSpace := .num 0 }) ∧
    (∀ (c : Coeffs) (p : Predictor) (row : Row),
      predict c p { row with rooms := .nan } =
        predict c p { row with rooms := .num 0 }) ∧
    (∀ (c : Coeffs) (row : Row) (ls rms : ℚ),
      row.livingSpace = .num ls → row.rooms = .num rms →
      predict c mkPredictor row =
        .num ⌊c.base + c.livingSpace * ls + c.rooms * rms + amenBonus c row + 1/2⌋) := by
  refine ⟨?_, ?_, fun c row ls rms hls hrm => predict_mk_num c row ls rms hls hrm⟩
  · intro c p row
    simp [predict, predictRegion, JsFloat.orZero]
  · intro c p row
    simp [predict, predictRegion, JsFloat.orZero]

/-- Witness for C7 (amended) at the concrete counterexample scenario. -/
theorem c7_amended_witness :
    predict coeffsMain mkPredictor c7RowNeg =
      .num ⌊coeffsMain.base + coeffsMain.livingSpace * (-10) + coeffsMain.rooms * 0 +
        amenBonus coeffsMain c7RowNeg + 1/2⌋ :=
  c7_amended.2.2 coeffsMain c7RowNeg (-10) 0 rfl rfl

/-! ### Claim C8 -/

/-- C8, counterexample: at the `predict` coercion site the comparison is
case-sensitive: `"True"` and upper-case `"YES"` are interpreted as false,
though the claim's case-insensitive reading (and the dashboard
aggregation site) accept them; `boolToNum` in turn rejects `"yes"` and
accepts `"1"`. -/
theorem c8_counterexample :
    specAmenTruthy (.str "True") = true ∧
    predictAmenTruthy (.str "True") = false ∧
    dashAmenTruthy (.str "True") = true ∧
    specAmenTruthy (.str "yes") = true ∧
    boolToNum (.str "yes") = 0 := by
  refine ⟨?_, ?_, ?_, ?_, ?_⟩ <;> decide

/-- C8, amended: the three coercion sites have pairwise different
semantics.  The `predict` site accepts exactly boolean `true` and the
case-sensitive strings `"true"` / `"yes"`; the dataset-aggregation site
accepts exactly the values whose JavaScript string form lower-cases to
`"true"` or `"yes"` (hence case-insensitively); `boolToNum` accepts
exactly `true`, `'true'`, `1` and `'1'` (and not `'yes'`).  Every value
the `predict` site accepts is also accepted by the aggregation site, but
not conversely. -/
theorem c8_amended :
    (∀ v : JsVal, predictAmenTruthy v = true ↔
      v = .bool true ∨ v = .str "true" ∨ v = .str "yes") ∧
    (∀ s : String, dashAmenTruthy (.str s) = true ↔
      lowerStr s = "true" ∨ lowerStr s = "yes") ∧
    (∀ v : JsVal, boolToNum v = 1 ↔
      v = .bool true ∨ v = .str "true" ∨ v = .str "1" ∨ v = .int 1) ∧
    (∀ v : JsVal, predictAmenTruthy v = true → dashAmenTruthy v = true) := by
  refine ⟨?_, ?_, ?_, ?_⟩
  · intro v
    match v with
    | .bool true => simp [predictAmenTruthy]
    | .bool false => simp [predictAmenTruthy]
    | .str s => simp [predictAmenTruthy]
    | .int n => simp [predictAmenTruthy]
    | .undef => simp [predictAmenTruthy]
  · intro s
    simp [dashAmenTruthy, jsStringOf]
  · intro v
    match v with
    | .bool true => simp [boolToNum]
    | .bool false => simp [boolToNum]
    | .str s =>
      by_cases h1 : s = "true"
      · simp [boolToNum, h1]
      · by_cases h2 : s = "1"
        · simp [boolToNum, h2]
        · simp [boolToNum, h1, h2]
    | .int n =>
      by_cases h : n = 1 <;> simp [boolToNum, h]
    | .undef => simp [boolToNum]
  · intro v h
    match v with
    | .bool true => rfl
    | .str s =>
      have hs : s = "true" ∨ s = "yes" := by simpa [predictAmenTruthy] using h
      rcases hs with hs | hs <;> subst hs <;> rfl

/-- Witness for the implication of C8 (amended) at a concrete value. -/
theorem c8_amended_witness : dashAmenTruthy (.str "yes") = true :=
  c8_amended.2.2.2 (.str "yes") (by decide)

/-! ### Claim C1 -/

theorem orZero_isNaN (x : JsFloat) : x.orZero.isNaN = false := by
  cases x <;> rfl

theorem orZero_gtZero (x : JsFloat) : x.orZero.gtZero = x.gtZero := by
  cases x <;> simp [JsFloat.orZero, JsFloat.gtZero]

theorem isSome_of_truthyStr (o : Option String) (h : truthyStr o = true) :
    o.isSome = true := by
  cases o <;> simp_all [truthyStr]

theorem truthyStr_of_gtZero (o : Option String)
    (h : (jsParseFloat o).gtZero = true) : truthyStr o = true := by
  cases o with
  | none => exact absurd h (by decide)
  | some s =>
    by_cases hs : s = ""
    · subst hs
      exact absurd h (by decide)
    · simp [truthyStr, hs]

/-- The code's retention predicate coincides with the claim's: the
truthiness and `isNaN` guards are redundant given `parseFloat(x) > 0`. -/
theorem keepRow_eq_spec (cy : ℚ) (row : RawRow) :
    keepRow cy row = specKeepRow cy row := by
  unfold keepRow specKeepRow
  rw [Bool.eq_iff_iff]
  simp only [orZero_gtZero, orZero_isNaN, Bool.not_false, Bool.true_and, Bool.and_eq_true]
  constructor
  · intro h
    have k1 := isSome_of_truthyStr row.totalRent
    have k2 := isSome_of_truthyStr row.livingSpace
    tauto
  · intro h
    have k1 := truthyStr_of_gtZero row.totalRent
    have k2 := truthyStr_of_gtZero row.livingSpace
    tauto

/-- C1: the Record Normalizer outputs exactly the rows whose `totalRent`
is present and parses `> 0`, whose `livingSpace` is present and parses
`> 0`, and whose coerced `yearConstructed` (default 0) lies in
`[1800, currentYear]` — in order, as cleaned records — and every other
row is silently dropped, so the output is never longer than the input. -/
theorem c1_record_normalizer (cy : ℚ) (rows : List RawRow) :
    processAndCleanData cy rows = (rows.filter (specKeepRow cy)).map cleanRecord ∧
    (processAndCleanData cy rows).length ≤ rows.length := by
  have heq : processAndCleanData cy rows = (rows.filter (specKeepRow cy)).map cleanRecord := by
    induction rows with
    | nil => rfl
    | cons r t ih =>
      show (if keepRow cy r then cleanRecord r :: processAndCleanData cy t
        else processAndCleanData cy t) = _
      rw [keepRow_eq_spec]
      by_cases h : specKeepRow cy r = true
      · simp [h, List.filter_cons, ih]
      · simp [h, List.filter_cons, ih]
  refine ⟨heq, ?_⟩
  rw [heq, List.length_map]
  exact List.length_filter_le _ _

/-! ### Claim C9 -/

/-- C9: ingestion that yields zero valid records is NOT surfaced as a
distinct "no data" status.  The completion callback unconditionally
stores the (empty) cleaned list and clears the loading flag — the
component state has no error/status field to set — and `train` on the
empty record set silently returns the model unchanged (untrained, empty
multiplier table). -/
theorem c9_no_data_not_surfaced :
    parseComplete 2025 [({} : RawRow)] ⟨[], true⟩ = ⟨[], false⟩ ∧
    train coeffsMain mkPredictor [] = mkPredictor := by
  constructor
  · show DashState.mk (processAndCleanData 2025 [({} : RawRow)]) false = ⟨[], false⟩
    have h : processAndCleanData 2025 [({} : RawRow)] = [] := by
      show (if keepRow 2025 {} then cleanRecord {} :: processAndCleanData 2025 []
        else processAndCleanData 2025 []) = []
      rw [if_neg]
      · rfl
      · show ¬(keepRow 2025 {} = true)
        unfold keepRow
        simp [truthyStr]
    rw [h]
  · rfl

/-! ### Claim C5 -/

/-- C5: for fixed `(livingSpace, rooms, region)`, `getSixPredictions`
returns exactly the eight named scenarios with the amenity combinations
(balcony, garden, lift): All true (T,T,T), All false (F,F,F), Balcony
(T,F,F), No Balcony (F,T,T), Garden (F,T,F), No Garden (T,F,T), Lift
(F,F,T), No Lift (T,T,F), each priced by `predict`; and the chart-ready
averaging step keeps the six single-amenity scenarios, mapping a
single-amenity-true rent `p` to `round((p + allTrue) / 2)` and a
single-amenity-false rent `p` to `round((p + allFalse) / 2)`. -/
theorem c5_scenarios_and_averaging (c : Coeffs) (p : Predictor)
    (livingSpace rooms : JsFloat) (region : String) :
    getSixPredictions c p livingSpace rooms region =
      [ ⟨"All true", predict c p (scenarioRow livingSpace rooms region true true true),
          true, "allTrue"⟩,
        ⟨"All false", predict c p (scenarioRow livingSpace rooms region false false false),
          true, "allFalse"⟩,
        ⟨"Balcony", predict c p (scenarioRow livingSpace rooms region true false false),
          true, "balcony"⟩,
        ⟨"No Balcony", predict c p (scenarioRow livingSpace rooms region false true true),
          false, "balcony"⟩,
        ⟨"Garden", predict c p (scenarioRow livingSpace rooms region false true false),
          true, "garden"⟩,
        ⟨"No Garden", predict c p (scenarioRow livingSpace rooms region true false true),
          false, "garden"⟩,
        ⟨"Lift", predict c p (scenarioRow livingSpace rooms region false false true),
          true, "lift"⟩,
        ⟨"No Lift", predict c p (scenarioRow livingSpace rooms region true true false),
          false, "lift"⟩ ] ∧
    adjustedPredictions c p livingSpace rooms region =
      [ ⟨"Balcony",
          averageWith (predict c p (scenarioRow livingSpace rooms region true false false))
            (predict c p (scenarioRow livingSpace rooms region true true true)),
          true, "balcony"⟩,
        ⟨"No Balcony",
          averageWith (predict c p (scenarioRow livingSpace rooms region false true true))
            (predict c p (scenarioRow livingSpace rooms region false false false)),
          false, "balcony"⟩,
        ⟨"Garden",
          averageWith (predict c p (scenarioRow livingSpace rooms region false true false))
            (predict c p (scenarioRow livingSpace rooms region true true true)),
          true, "garden"⟩,
        ⟨"No Garden",
          averageWith (predict c p (scenarioRow livingSpace rooms region true false true))
            (predict c p (scenarioRow livingSpace rooms region false false false)),
          false, "garden"⟩,
        ⟨"Lift",
          averageWith (predict c p (scenarioRow livingSpace rooms region false false true))
            (predict c p (scenarioRow livingSpace rooms region true true true)),
          true, "lift"⟩,
        ⟨"No Lift",
          averageWith (predict c p (scenarioRow livingSpace rooms region true true false))
            (predict c p (scenarioRow livingSpace rooms region false false false)),
          false, "lift"⟩ ] := by
  exact ⟨rfl, rfl⟩

/-! ### Claim C3 -/

theorem foldl_setMult (data : List Row) (keys : List String) :
    ∀ (tbl : String → Option ℚ) (r : String),
      (keys.foldl (setMult data) tbl) r =
        if r ∈ keys then some (regionMult data r) else tbl r := by
  induction keys with
  | nil => intro tbl r; simp
  | cons k ks ih =>
    intro tbl r
    simp only [List.foldl_cons]
    rw [ih]
    by_cases hr : r ∈ ks
    · simp [hr, List.mem_cons]
    · by_cases hrk : r = k
      · subst hrk
        simp [hr, setMult]
      · simp [hr, hrk, setMult, List.mem_cons]

/-- The multiplier table after one `train` call on non-empty data: every
region key of the new data gets its freshly computed multiplier; every
other key keeps its previous entry. -/
theorem train_multipliers (c : Coeffs) (p : Predictor) (data : List Row)
    (h : data ≠ []) (r : String) :
    (train c p data).regionMultipliers r =
      if r ∈ trainRegions data then some (regionMult data r)
      else p.regionMultipliers r := by
  unfold train
  rw [if_neg (by simpa [List.length_eq_zero] using h)]
  exact foldl_setMult data (trainRegions data) p.regionMultipliers r

/-- The training rows used by the C3 counterexample. -/
def c3RowA : Row := { regio1 := some "Aaa", totalRent := .num 2400 }

def c3RowB : Row := { regio1 := some "Bbb", totalRent := .num 2400 }

/-- C3, counterexample: training on `[c3RowA]` (region "Aaa") and then on
`[c3RowB]` (region "Bbb") leaves the stale "Aaa" multiplier (2400/1200 = 2)
in the table, whereas training a fresh model on `[c3RowB]` alone has no
"Aaa" entry: re-training merges, it does not replace wholesale. -/
theorem c3_counterexample :
    (train coeffsMain (train coeffsMain mkPredictor [c3RowA]) [c3RowB]).regionMultipliers
        "Aaa" = some 2 ∧
    (train coeffsMain mkPredictor [c3RowB]).regionMultipliers "Aaa" = none := by
  have hA : trainRegions [c3RowA] = ["Aaa"] := by decide
  have hB : trainRegions [c3RowB] = ["Bbb"] := by decide
  have hvalA : regionMult [c3RowA] "Aaa" = 2 := by
    have hfil : [c3RowA].filter (fun r => cleanRegionName r.regio1 = "Aaa") = [c3RowA] := by
      decide
    unfold regionMult
    rw [hfil]
    show (if 0 < ([c3RowA].map fun r =>
        match r.totalRent with
        | .num q => q
        | _ => 0).sum / (([c3RowA].length : ℚ)) then
          ([c3RowA].map fun r =>
            match r.totalRent with
            | .num q => q
            | _ => 0).sum / (([c3RowA].length : ℚ)) / 1200
        else 1) = 2
    norm_num [c3RowA]
  constructor
  · rw [train_multipliers coeffsMain _ [c3RowB] (by simp) "Aaa", hB,
      if_neg (by decide),
      train_multipliers coeffsMain mkPredictor [c3RowA] (by simp) "Aaa", hA,
      if_pos (by decide), hvalA]
  · rw [train_multipliers coeffsMain mkPredictor [c3RowB] (by simp) "Aaa", hB,
      if_neg (by decide)]
    rfl

/-- C3, amended: `train` does not rebuild the multiplier table wholesale.
After `train(A); train(B)` the table agrees with a fresh `train(B)` on the
region keys of B, but keys absent from B retain their entries from the
earlier `train(A)`; the two tables coincide only when B covers all of A's
regions. -/
theorem c3_amended (c : Coeffs) (p : Predictor) (A B : List Row)
    (hB : B ≠ []) (r : String) :
    (train c (train c p A) B).regionMultipliers r =
      if r ∈ trainRegions B then (train c mkPredictor B).regionMultipliers r
      else (train c p A).regionMultipliers r := by
  rw [train_multipliers c _ B hB r, train_multipliers c mkPredictor B hB r]
  by_cases hr : r ∈ trainRegions B <;> simp [hr]

/-- Witness for C3 (amended) at the concrete counterexample data. -/
theorem c3_amended_witness :
    (train coeffsMain (train coeffsMain mkPredictor [c3RowA]) [c3RowB]).regionMultipliers
        "Ccc" =
      (train coeffsMain mkPredictor [c3RowA]).regionMultipliers "Ccc" := by
  have h := c3_amended coeffsMain mkPredictor [c3RowA] [c3RowB] (by simp) "Ccc"
  rw [h, if_neg]
  intro hmem
  have hB : trainRegions [c3RowB] = ["Bbb"] := by decide
  rw [hB] at hmem
  simp at hmem

/-! ### Claim C4 -/

/-- Select one amenity's entry from an `Impacts` record. -/
def getImpact (i : Impacts) : Feature → JsFloat
  | .balcony => i.balcony
  | .garden => i.garden
  | .lift => i.lift

/-- The per-feature impact as the amended claim C4 states it: the mean of
the per-record `predict` differences over exactly the records with truthy
(nonzero, non-NaN) `livingSpace` and `rooms`, rounded to the nearest
integer; `0` when that subset is empty. -/
def amendedFeatureImpact (c : Coeffs) (p : Predictor) (f : Feature) : JsFloat :=
  let rows := p.data.filter (fun row => row.livingSpace.truthy && row.rooms.truthy)
  let diffs := rows.map (fun row =>
    JsFloat.sub (predict c p (setFeature row f (.bool true)))
      (predict c p (setFeature row f (.bool false))))
  if diffs.length = 0 then .num 0
  else JsFloat.round (JsFloat.divNat (diffs.foldl JsFloat.add (.num 0)) diffs.length)

/-- The fallback chain of `predict` always resolves at its first
alternative (see C10). -/
theorem predictRegion_eq (row : Row) :
    predictRegion row = cleanRegionName row.regio1 := by
  simp [predictRegion, cleanRegionName_ne_empty row.regio1]

theorem round_num_zero : JsFloat.round (.num 0) = .num 0 := by
  show JsFloat.num ((⌊(0 : ℚ) + 1/2⌋ : ℤ) : ℚ) = .num 0
  rw [show ((0 : ℚ) + 1/2) = (((0 : ℤ) : ℚ) + 1/2) by norm_num, floor_add_half]
  norm_cast

/-- Rounding the stored impact is the amended-claim impact. -/
theorem round_featureImpact (c : Coeffs) (p : Predictor) (f : Feature) :
    (featureImpact c p f).round = amendedFeatureImpact c p f := by
  unfold featureImpact amendedFeatureImpact
  by_cases h : ((p.data.filter
      (fun row => row.livingSpace.truthy && row.rooms.truthy)).map (fun row =>
        JsFloat.sub (predict c p (setFeature row f (.bool true)))
          (predict c p (setFeature row f (.bool false))))).length = 0
  · simp only [h, if_pos, if_true]
    exact round_num_zero
  · simp only [h, if_false, if_neg h]

theorem featureImpact_congr (c : Coeffs) {p p' : Predictor}
    (hd : p.data = p'.data) (hm : p.regionMultipliers = p'.regionMultipliers)
    (f : Feature) : featureImpact c p f = featureImpact c p' f := by
  unfold featureImpact predict multiplierFor
  simp only [hd, hm]

theorem train_data (c : Coeffs) (p : Predictor) (data : List Row)
    (h : data ≠ []) : (train c p data).data = data := by
  unfold train
  rw [if_neg (by simpa [List.length_eq_zero] using h)]

theorem train_getImpact (c : Coeffs) (p : Predictor) (data : List Row)
    (h : data ≠ []) (f : Feature) :
    getImpact (getFeatureImpacts (train c p data)) f =
      (featureImpact c (train c p data) f).round := by
  unfold train
  rw [if_neg (by simpa [List.length_eq_zero] using h)]
  cases f
  · exact congrArg JsFloat.round (featureImpact_congr c rfl rfl .balcony)
  · exact congrArg JsFloat.round (featureImpact_congr c rfl rfl .garden)
  · exact congrArg JsFloat.round (featureImpact_congr c rfl rfl .lift)

/-- The record refuting claim C4: `livingSpace = -5` is truthy (nonzero)
for the code's filter but not positive as the claim requires. -/
def c4Row : Row :=
  { regio1 := some "A", totalRent := .num 1200,
    livingSpace := .num (-5), rooms := .num 3 }

theorem c4_trainRegions : trainRegions [c4Row] = ["A"] := by decide

theorem c4_regionMult : regionMult [c4Row] "A" = 1 := by
  have hfil : [c4Row].filter (fun r => cleanRegionName r.regio1 = "A") = [c4Row] := by
    decide
  unfold regionMult
  rw [hfil]
  norm_num [c4Row]

theorem c4_mult : multiplierFor (train coeffsMain mkPredictor [c4Row]) "A" = 1 := by
  have hm : (train coeffsMain mkPredictor [c4Row]).regionMultipliers "A" = some 1 := by
    rw [train_multipliers coeffsMain mkPredictor [c4Row] (by simp) "A",
      c4_trainRegions, if_pos (by decide), c4_regionMult]
  unfold multiplierFor
  rw [hm]
  norm_num

theorem c4_predict_yes :
    predict coeffsMain (train coeffsMain mkPredictor [c4Row])
      (setFeature c4Row .balcony (.bool true)) = .num 1167 := by
  rw [predict_num coeffsMain _ _ (-5) 3 rfl rfl]
  have hreg : predictRegion (setFeature c4Row .balcony (.bool true)) = "A" := by
    rw [predictRegion_eq]
    decide
  rw [hreg, c4_mult, one_mul]
  have h : coeffsMain.base + coeffsMain.livingSpace * (-5) + coeffsMain.rooms * 3 +
      amenBonus coeffsMain (setFeature c4Row .balcony (.bool true)) = ((1167 : ℤ) : ℚ) := by
    norm_num [coeffsMain, amenBonus, predictAmenTruthy, setFeature, c4Row]
  rw [h, floor_add_half]
  norm_cast

theorem c4_predict_no :
    predict coeffsMain (train coeffsMain mkPredictor [c4Row])
      (setFeature c4Row .balcony (.bool false)) = .num 1119 := by
  rw [predict_num coeffsMain _ _ (-5) 3 rfl rfl]
  have hreg : predictRegion (setFeature c4Row .balcony (.bool false)) = "A" := by
    rw [predictRegion_eq]
    decide
  rw [hreg, c4_mult, one_mul]
  have h : coeffsMain.base + coeffsMain.livingSpace * (-5) + coeffsMain.rooms * 3 +
      amenBonus coeffsMain (setFeature c4Row .balcony (.bool false)) = ((1119 : ℤ) : ℚ) := by
    norm_num [coeffsMain, amenBonus, predictAmenTruthy, setFeature, c4Row]
  rw [h, floor_add_half]
  norm_cast

theorem c4_row_truthy :
    (c4Row.livingSpace.truthy && c4Row.rooms.truthy) = true := by
  show (JsFloat.truthy (.num (-5)) && JsFloat.truthy (.num 3)) = true
  simp only [JsFloat.truthy, Bool.and_eq_true, decide_eq_true_eq]
  norm_num

theorem c4_row_not_pos :
    (c4Row.livingSpace.gtZero && c4Row.rooms.gtZero) = false := by
  show (JsFloat.gtZero (.num (-5)) && JsFloat.gtZero (.num 3)) = false
  simp only [JsFloat.gtZero, Bool.and_eq_false_iff, decide_eq_false_iff_not]
  left
  norm_num

/-- C4, counterexample: on the single-record set `[c4Row]`
(livingSpace = -5, rooms = 3) the code's estimated balcony impact is 48
(the record passes the truthiness filter), while the claim's rule
(restrict to records with positive livingSpace and rooms; 0 on an empty
subset) yields 0. -/
theorem c4_counterexample :
    getImpact (getFeatureImpacts (train coeffsMain mkPredictor [c4Row])) .balcony =
      .num 48 ∧
    specFeatureImpact coeffsMain (train coeffsMain mkPredictor [c4Row]) .balcony =
      .num 0 ∧
    JsFloat.num 48 ≠ JsFloat.num 0 := by
  refine ⟨?_, ?_, ?_⟩
  · rw [train_getImpact coeffsMain mkPredictor [c4Row] (by simp) .balcony]
    have hsub : JsFloat.sub (.num 1167) (.num 1119) = .num 48 := by
      show JsFloat.num (1167 + -1119) = .num 48
      norm_num
    have hadd : JsFloat.add (.num 0) (.num 48) = .num 48 := by
      show JsFloat.num (0 + 48) = .num 48
      norm_num
    have hdiv : JsFloat.divNat (.num 48) 1 = .num 48 := by
      unfold JsFloat.divNat
      rw [if_neg (by norm_num)]
      show JsFloat.num (((1 : ℕ) : ℚ)⁻¹ * 48) = .num 48
      norm_num
    have hround : JsFloat.round (.num 48) = .num 48 := by
      show JsFloat.num ((⌊(48 : ℚ) + 1/2⌋ : ℤ) : ℚ) = .num 48
      rw [show ((48 : ℚ) + 1/2) = (((48 : ℤ) : ℚ) + 1/2) by norm_num, floor_add_half]
      norm_cast
    unfold featureImpact
    rw [train_data coeffsMain mkPredictor [c4Row] (by simp)]
    simp only [List.filter_cons, List.filter_nil, c4_row_truthy, if_true, List.map_cons,
      List.map_nil, c4_predict_yes, c4_predict_no, hsub, List.length_cons, List.length_nil,
      List.foldl_cons, List.foldl_nil, Nat.zero_add, hadd]
    rw [if_neg (by norm_num), hdiv, hround]
  · unfold specFeatureImpact
    rw [train_data coeffsMain mkPredictor [c4Row] (by simp)]
    rw [show [c4Row].filter (fun row => row.livingSpace.gtZero && row.rooms.gtZero) =
      ([] : List Row) by rw [List.filter_cons, if_neg (by simp [c4_row_not_pos])]; rfl]
    rfl
  · intro h
    have := JsFloat.num.inj h
    norm_num at this

/-- C4, amended: after training on a non-empty record set, each amenity's
estimated impact (`getFeatureImpacts`) equals the arithmetic mean, rounded
to the nearest integer, of the per-record `predict` differences
(amenity forced true minus forced false, all else unchanged) over exactly
those records whose `livingSpace` and `rooms` are truthy (nonzero and
non-NaN) — not positive, as claimed; it is 0 whenever that filtered subset
is empty, and in particular every impact is 0 for an empty record set
(where `train` is a no-op). -/
theorem c4_amended :
    (∀ (c : Coeffs) (p : Predictor) (data : List Row) (f : Feature), data ≠ [] →
      getImpact (getFeatureImpacts (train c p data)) f =
        amendedFeatureImpact c (train c p data) f) ∧
    (∀ (c : Coeffs) (p : Predictor) (f : Feature),
      p.data.filter (fun row => row.livingSpace.truthy && row.rooms.truthy) = [] →
      amendedFeatureImpact c p f = .num 0) ∧
    getFeatureImpacts (train coeffsMain mkPredictor []) =
      ⟨.num 0, .num 0, .num 0⟩ := by
  refine ⟨?_, ?_, ?_⟩
  · intro c p data f h
    exact (train_getImpact c p data h f).trans (round_featureImpact c _ f)
  · intro c p f h
    unfold amendedFeatureImpact
    rw [h]
    rfl
  · show getFeatureImpacts mkPredictor = ⟨.num 0, .num 0, .num 0⟩
    show Impacts.mk (JsFloat.round (.num 0)) (JsFloat.round (.num 0))
      (JsFloat.round (.num 0)) = ⟨.num 0, .num 0, .num 0⟩
    rw [round_num_zero]

/-- Witness for C4 (amended) at the concrete counterexample data. -/
theorem c4_amended_witness :
    getImpact (getFeatureImpacts (train coeffsMain mkPredictor [c4Row])) .garden =
      amendedFeatureImpact coeffsMain (train coeffsMain mkPredictor [c4Row]) .garden :=
  c4_amended.1 coeffsMain mkPredictor [c4Row] .garden (by simp)
